import Mathlib

/-!
# Verification of the leveling-adjustment core of `fire/cli/niv/_regn.py`

Shallow embedding of the adjustment-preparation and result-reconciliation
logic of the FIRE repository: the a-priori deviation model (`spredning`),
the fixed-point selector (`find_fastholdte`), the solver-input writer
(`skriv_gama_inputfil`, observation section), the solver-output reader
(`læs_gama_output`, cardinality check) and the working-set reconciler
(`opdater_arbejdssæt`).

Modelling conventions:
* Python floats are modelled as exact numbers: rational (`ℚ`) wherever the
  source only adds, subtracts, multiplies, divides and compares, and real
  (`ℝ`) where `math.sqrt` / `math.hypot` enter.
* `math.sqrt` raises `ValueError` on a negative argument; this is modelled
  by `mathSqrt`, returning `Except Fejl ℝ`.
* Missing spreadsheet cells (Python `None`) are modelled with `Option`.
* Timestamps (`pandas.Timestamp`) are modelled as rational numbers of
  seconds since an epoch, so that `(a - b).total_seconds()` is plain
  subtraction.
* The exception taxonomy of the spec
  (InvalidMeasurementType / InvalidGeometry / ResultCardinalityMismatch /
  NoFixedPointsError) names the distinct failure modes of the source,
  which raises bare `ValueError` / `AssertionError` / `SystemExit`.
-/

/-- Failure modes of the computation core, named after the spec's taxonomy
(the source raises `ValueError`, `AssertionError` or `SystemExit`). -/
inductive Fejl where
  | invalidMeasurementType
  | invalidGeometry
  | resultCardinalityMismatch
  | noFixedPoints
  deriving DecidableEq, Repr

/-- Python's `str.upper()` on the ASCII strings used as measurement-type
codes (character-wise upper-casing). -/
def pyUpper (s : String) : String := ⟨s.data.map Char.toUpper⟩

/-- Python's `math.sqrt` on a rational argument: raises (`ValueError`,
modelled as `Fejl.invalidGeometry`) on a negative argument, otherwise the
real square root. -/
noncomputable def mathSqrt (x : ℚ) : Except Fejl ℝ :=
  if x < 0 then .error .invalidGeometry else .ok (Real.sqrt (x : ℝ))

/-- Python's `math.hypot x y = sqrt (x² + y²)` (total on the reals). -/
noncomputable def mathHypot (x y : ℝ) : ℝ :=
  Real.sqrt (x ^ 2 + y ^ 2)

/-- `spredning` from `_regn.py` (lines 214–252): a-priori standard deviation
of a leveling observation.  `NUL` short-circuits to `0` before the
setup-dependent term is computed; `MTL` and `MGL` combine a
distance-dependent term with `sqrt (antal_opstillinger * centrering²)` via
`hypot`; any other type raises (`Fejl.invalidMeasurementType`).  Type
dispatch upper-cases the argument, exactly as `observationstype.upper()`. -/
noncomputable def spredning (observationstype : String) («afstand_i_m» : ℚ)
    (antal_opstillinger : ℚ) («afstandsafhængig_spredning_i_mm» : ℚ)
    («centreringsspredning_i_mm» : ℚ) : Except Fejl ℝ :=
  if pyUpper observationstype = "NUL" then .ok 0
  else
    match mathSqrt (antal_opstillinger * «centreringsspredning_i_mm» ^ 2) with
    | .error e => .error e
    | .ok «opstillingsafhængig» =>
      if pyUpper observationstype = "MTL" then
        .ok (mathHypot
          ((«afstandsafhængig_spredning_i_mm» * «afstand_i_m» / 1000 : ℚ) : ℝ)
          «opstillingsafhængig»)
      else if pyUpper observationstype = "MGL" then
        match mathSqrt («afstand_i_m» / 1000) with
        | .error e => .error e
        | .ok rod =>
          .ok (mathHypot ((«afstandsafhængig_spredning_i_mm» : ℚ) * rod)
                «opstillingsafhængig»)
      else .error .invalidMeasurementType

/-- The `Arbejdssæt` dataclass of `_regn.py` (lines 51–67): the working
dataset as fourteen parallel lists (column-major rows of the
`Punktoversigt` sheet).  `punkt` holds point ids (strings in practice,
although the dataclass annotation says `int`); optional fields model blank
spreadsheet cells / Python `None`. -/
structure «Arbejdssæt» where
  punkt : List String
  fasthold : List String
  «hvornår» : List ℚ
  kote : List (Option ℚ)
  sigma : List (Option ℝ)
  ny_kote : List (Option ℚ)
  ny_sigma : List (Option ℝ)
  Delta_kote : List (Option ℚ)
  «opløft» : List (Option ℚ)
  system : List String
  nord : List (Option ℚ)
  «øst» : List (Option ℚ)
  uuid : List (Option String)
  udelad : List String

/-- Well-formedness of a working set: the fourteen parallel lists all have
the same length (the row-count of the underlying spreadsheet sheet, which
`regn` reconstitutes with `DataFrame(list(zip(*værdier)))`). -/
def «Arbejdssæt».Wf (a : «Arbejdssæt») : Prop :=
  a.fasthold.length = a.punkt.length ∧
  a.«hvornår».length = a.punkt.length ∧
  a.kote.length = a.punkt.length ∧
  a.sigma.length = a.punkt.length ∧
  a.ny_kote.length = a.punkt.length ∧
  a.ny_sigma.length = a.punkt.length ∧
  a.Delta_kote.length = a.punkt.length ∧
  a.«opløft».length = a.punkt.length ∧
  a.system.length = a.punkt.length ∧
  a.nord.length = a.punkt.length ∧
  a.«øst».length = a.punkt.length ∧
  a.uuid.length = a.punkt.length ∧
  a.udelad.length = a.punkt.length

instance (a : «Arbejdssæt») : Decidable a.Wf := by
  unfold «Arbejdssæt».Wf
  infer_instance

/-- `find_fastholdte` from `_regn.py` (lines 256–266), translated with
Python's actual semantics for the expressions it contains.  The source
compares the plain Python *list* `arbejdssæt.fasthold` with a string:
`arbejdssæt.fasthold == "x"` evaluates to the boolean `False` (a list never
equals a string) and `arbejdssæt.fasthold != ""` to `True`.  That boolean
is then used as a *list index* (`bool` is an `int` subtype: `False` → 0,
`True` → 1), so the function returns the one-entry dict
`{punkt[0]: kote[0]}` in the control phase and `{punkt[1]: kote[1]}` in the
final phase, irrespective of any fixed-flags.  `none` models the
`IndexError` raised when the indexed row does not exist. -/
def find_fastholdte («arbejdssæt» : «Arbejdssæt») (kontrol : Bool) :
    Option (List (String × Option ℚ)) :=
  let relevante : Nat := if kontrol then 0 else 1
  match «arbejdssæt».punkt.get? relevante, «arbejdssæt».kote.get? relevante with
  | some p, some k => some [(p, k)]
  | _, _ => none

/-- The fixed-point guard of `regn` (`_regn.py` lines 118–121): run
`find_fastholdte` and abort with an error status (`SystemExit(1)`, the
spec's NoFixedPointsError) when no fixed point was selected. -/
def regn_fastholdte («arbejdssæt» : «Arbejdssæt») (kontrol : Bool) :
    Except Fejl (List (String × Option ℚ)) :=
  match find_fastholdte «arbejdssæt» kontrol with
  | none => .error .noFixedPoints
  | some fastholdte =>
      if fastholdte.length = 0 then .error .noFixedPoints else .ok fastholdte

/-- The `Observationer` dataclass of `_regn.py` (lines 28–48): observation
rows as parallel lists. -/
structure Observationer where
  journal : List String
  sluk : List String
  fra : List String
  til : List String
  delta_H : List ℚ
  L : List ℚ
  opst : List ℚ
  sigma : List ℚ
  delta : List ℚ
  kommentar : List String
  «hvornår» : List ℚ
  T : List ℚ
  sky : List ℚ
  sol : List ℚ
  vind : List ℚ
  sigt : List ℚ
  kilde : List String
  type : List String
  uuid : List String

/-- One tuple of the ten-fold `zip` in `skriv_gama_inputfil`
(`_regn.py` lines 306–317). -/
structure «ObsRække» where
  sluk : String
  fra : String
  til : String
  delta_H : ℚ
  L : ℚ
  type : String
  opst : ℚ
  sigma : ℚ
  delta : ℚ
  journal : String

/-- Python's ten-list `zip`: truncates to the shortest list. -/
def zipObs : List String → List String → List String → List ℚ → List ℚ →
    List String → List ℚ → List ℚ → List ℚ → List String → List «ObsRække»
  | s :: ss, f :: fs, t :: ts, d :: ds, l :: ls, ty :: tys, op :: ops,
      si :: sis, de :: des, j :: js =>
      ⟨s, f, t, d, l, ty, op, si, de, j⟩ ::
        zipObs ss fs ts ds ls tys ops sis des js
  | _, _, _, _, _, _, _, _, _, _ => []

/-- The rows iterated by the observation loop of `skriv_gama_inputfil`. -/
def «obsRækker» (o : Observationer) : List «ObsRække» :=
  zipObs o.sluk o.fra o.til o.delta_H o.L o.type o.opst o.sigma o.delta
    o.journal

/-- One `<dh .../>` record of the generated gama input file, carrying the
exact values the source formats into the attributes `from`, `to`, `val`,
`dist`, `stdev` and `extern`. -/
structure DhRec where
  fra : String
  til : String
  val : ℚ
  dist : ℚ
  stdev : ℝ
  ekstern : String

/-- The observation loop of `skriv_gama_inputfil` (`_regn.py` lines
305–325): skip rows whose `sluk` flag equals `"x"`, emit a `<dh/>` record
for every other row, with the a-priori deviation computed by `spredning`
(whose `ValueError`s propagate and abort the write). -/
noncomputable def dhLinjer : List «ObsRække» → Except Fejl (List DhRec)
  | [] => .ok []
  | r :: rest =>
    if r.sluk = "x" then dhLinjer rest
    else
      match spredning r.type r.L r.opst r.sigma r.delta with
      | .error e => .error e
      | .ok s =>
        match dhLinjer rest with
        | .error e => .error e
        | .ok ds => .ok (⟨r.fra, r.til, r.delta_H, r.L, s, r.journal⟩ :: ds)

/-- The content of the gama input file written by `skriv_gama_inputfil`:
fixed-point records, adjusted-point records and height-difference
records (the fixed preamble/postamble carry no data). -/
structure GamaInput where
  fastholdte : List (String × Option ℚ)
  estimerede : List String
  observationer : List DhRec

/-- `skriv_gama_inputfil` from `_regn.py` (lines 269–333), modelled as the
structured content of the file it writes. -/
noncomputable def skriv_gama_inputfil (fastholdte : List (String × Option ℚ))
    (estimerede_punkter : List String) (observationer : Observationer) :
    Except Fejl GamaInput :=
  match dhLinjer («obsRækker» observationer) with
  | .error e => .error e
  | .ok ds => .ok ⟨fastholdte, estimerede_punkter, ds⟩

/-- `læs_gama_output` from `_regn.py` (lines 369–391), modelled on the
already-parsed XML content: `koteliste` is the list of adjusted points
(`{id, z}` pairs) and `varliste` the flat covariance-diagonal list; `tg`
is the validity timestamp supplied by the external collaborator
`gyldighedstidspunkt`.  The source asserts
`len(koter) == len(varianser)` (the spec's ResultCardinalityMismatch)
before returning `(punkter, koter, varianser, tg)`. -/
def «læs_gama_output» (koteliste : List (String × ℚ)) (varliste : List ℚ)
    (tg : ℚ) : Except Fejl (List String × List ℚ × List ℚ × ℚ) :=
  let punkter := koteliste.map (fun p => p.1)
  let koter := koteliste.map (fun p => p.2)
  let varianser := varliste
  if koter.length = varianser.length then .ok (punkter, koter, varianser, tg)
  else .error .resultCardinalityMismatch

/-- The delta-height computation of `opdater_arbejdssæt` (`_regn.py` lines
418–422): change in millimeters, snapped to exactly `0` below the
micrometer level. -/
def deltaKote (ny_kote gammel_kote : ℚ) : ℚ :=
  let Delta := (ny_kote - gammel_kote) * 1000
  if |Delta| < 1 / 1000 then 0 else Delta

/-- One iteration of the reconciliation loop of `opdater_arbejdssæt`
(`_regn.py` lines 403–449), processing the solver triple
`(punkt, ny_kote, var)` at loop position `j`.

* Existing point (`punkt in arbejdssæt.punkt`): `i` is the *first* index
  at which it occurs.  When `i > j` the source first appends
  `punkt[i]`, `ny_sigma[i]` and `hvornår[i]` together with the constant
  `"DVR90"` to exactly those four lists (the other ten lists are left
  as they are), then overwrites row `i`: new height, new uncertainty
  `sqrt(var)` and the snapped delta-height.  `dt` is the elapsed time in
  365.25-day years between the row's timestamp and `tg`; when `dt == 0`
  the iteration ends (`continue`), otherwise uplift `Delta / dt`, the
  timestamp and the system label `"DVR90"` are written to row `i`.
* New point: one value is appended to every one of the fourteen lists,
  with blank/`none` historical fields.

The source reads `arbejdssæt.kote[i]` without a `None`-guard (a missing
prior height would raise `TypeError`; that path needs the same point id
twice in one solver output and is modelled with default `0`), and calls
`sqrt(var)` on solver variances, which are nonnegative covariance-diagonal
entries. -/
noncomputable def opdaterTrin (j : ℕ) (punkt : String) (ny_kote : ℚ)
    (var : ℚ) (a : «Arbejdssæt») (tg : ℚ) : «Arbejdssæt» :=
  if punkt ∈ a.punkt then
    let i := a.punkt.indexOf punkt
    let a :=
      if i > j then
        { a with
          punkt := a.punkt ++ [a.punkt.getD i ""]
          ny_sigma := a.ny_sigma ++ [a.ny_sigma.getD i none]
          «hvornår» := a.«hvornår» ++ [a.«hvornår».getD i 0]
          system := a.system ++ ["DVR90"] }
      else a
    let a :=
      { a with
        punkt := a.punkt.set i punkt
        ny_kote := a.ny_kote.set i (some ny_kote)
        ny_sigma := a.ny_sigma.set i (some (Real.sqrt (var : ℝ))) }
    let Delta := deltaKote ny_kote ((a.kote.getD i none).getD 0)
    let a := { a with Delta_kote := a.Delta_kote.set i (some Delta) }
    let dt := (tg - a.«hvornår».getD i 0) / ((1461 / 4) * 86400)
    if dt = 0 then a
    else
      { a with
        «opløft» := a.«opløft».set i (some (Delta / dt))
        «hvornår» := a.«hvornår».set i tg
        system := a.system.set i "DVR90" }
  else
    { punkt := a.punkt ++ [punkt]
      ny_sigma := a.ny_sigma ++ [some (Real.sqrt (var : ℝ))]
      «hvornår» := a.«hvornår» ++ [tg]
      ny_kote := a.ny_kote ++ [some ny_kote]
      system := a.system ++ ["DVR90"]
      fasthold := a.fasthold ++ [""]
      kote := a.kote ++ [none]
      sigma := a.sigma ++ [none]
      Delta_kote := a.Delta_kote ++ [none]
      «opløft» := a.«opløft» ++ [none]
      «øst» := a.«øst» ++ [none]
      nord := a.nord ++ [none]
      uuid := a.uuid ++ [none]
      udelad := a.udelad ++ [""] }

/-- The `for j, (punkt, ny_kote, var) in enumerate(zip(...))` loop of
`opdater_arbejdssæt`, with the loop counter made explicit. -/
noncomputable def «opdaterLøkke» (j : ℕ) (tripler : List (String × ℚ × ℚ))
    (a : «Arbejdssæt») (tg : ℚ) : «Arbejdssæt» :=
  match tripler with
  | [] => a
  | (punkt, ny_kote, var) :: rest =>
      «opdaterLøkke» (j + 1) rest (opdaterTrin j punkt ny_kote var a tg) tg

/-- `opdater_arbejdssæt` from `_regn.py` (lines 395–450): reconcile the
solver output (`punkter`, `koter`, `varianser`, truncated to the shortest
list exactly as Python's `zip`) into the working set. -/
noncomputable def «opdater_arbejdssæt» (punkter : List String)
    (koter : List ℚ) (varianser : List ℚ) (a : «Arbejdssæt») (tg : ℚ) :
    «Arbejdssæt» :=
  «opdaterLøkke» 0 (punkter.zip (koter.zip varianser)) a tg

/-- The read-then-reconcile sequence of `regn` (`_regn.py` lines 140–143):
`læs_gama_output` runs before `opdater_arbejdssæt`, so a failed read leaves
the working set untouched. -/
noncomputable def «regn_læs_og_opdater» (koteliste : List (String × ℚ))
    (varliste : List ℚ) (a : «Arbejdssæt») (tg : ℚ) :
    Except Fejl «Arbejdssæt» :=
  match «læs_gama_output» koteliste varliste tg with
  | .error e => .error e
  | .ok (punkter, koter, varianser, t) =>
      .ok («opdater_arbejdssæt» punkter koter varianser a t)

/-- Concrete two-row working set: row 0 is point "B" with empty fixed-flag
and prior height 10, row 1 is point "A" with fixed-flag "x" and prior
height 20; all fourteen lists have length two. -/
def wsBA : «Arbejdssæt» where
  punkt := ["B", "A"]
  fasthold := ["", "x"]
  «hvornår» := [0, 0]
  kote := [some 10, some 20]
  sigma := [none, none]
  ny_kote := [none, none]
  ny_sigma := [none, none]
  Delta_kote := [none, none]
  «opløft» := [none, none]
  system := ["DVR90", "DVR90"]
  nord := [none, none]
  «øst» := [none, none]
  uuid := [none, none]
  udelad := ["", ""]

/-- Concrete two-row working set with *no* fixed-flag set on any row:
points "A" (height 5) and "B" (height 7), both with empty flag. -/
def wsTomFlag : «Arbejdssæt» where
  punkt := ["A", "B"]
  fasthold := ["", ""]
  «hvornår» := [0, 0]
  kote := [some 5, some 7]
  sigma := [none, none]
  ny_kote := [none, none]
  ny_sigma := [none, none]
  Delta_kote := [none, none]
  «opløft» := [none, none]
  system := ["DVR90", "DVR90"]
  nord := [none, none]
  «øst» := [none, none]
  uuid := [none, none]
  udelad := ["", ""]

/-- Correspondence between a source observation row and an emitted `<dh/>`
record: endpoints, height difference, distance and journal id are copied
verbatim, and the `stdev` attribute is the successful result of
`spredning` on the row's type and geometry. -/
def dhSvarerTil (r : «ObsRække») (d : DhRec) : Prop :=
  d.fra = r.fra ∧ d.til = r.til ∧ d.val = r.delta_H ∧ d.dist = r.L ∧
    d.ekstern = r.journal ∧
    spredning r.type r.L r.opst r.sigma r.delta = .ok d.stdev
/-- Concrete observation set: row 0 is excluded (`sluk = "x"`), row 1 is a
live "NUL" tie observation from "B" to "C". -/
def obsW : Observationer where
  journal := ["j1", "j2"]
  sluk := ["x", ""]
  fra := ["A", "B"]
  til := ["B", "C"]
  delta_H := [1, 2]
  L := [100, 200]
  opst := [2, 3]
  sigma := [1, 1]
  delta := [1, 1]
  kommentar := []
  «hvornår» := []
  T := []
  sky := []
  sol := []
  vind := []
  sigt := []
  kilde := []
  type := ["MTL", "NUL"]
  uuid := []
/-- The solver input generated from `obsW`: only the non-excluded row is
emitted. -/
def gamaW : GamaInput where
  fastholdte := []
  estimerede := []
  observationer := [⟨"B", "C", 2, 200, 0, "j2"⟩]

/-- Evaluation of `spredning` when the upper-cased type is `"NUL"`: the
function returns `0` before any square root is taken. -/
theorem spredning_nul_eval (t : String) (a n s c : ℚ)
    (ht : pyUpper t = "NUL") : spredning t a n s c = .ok 0 := by
  simp +decide [spredning, ht]

/-- Evaluation of `spredning` when the upper-cased type is `"MTL"` and the
setup term is well-defined: `hypot (s * a / 1000) (sqrt (n * c²))`.  The
distance `a` is not constrained — the MTL branch takes no square root of
it. -/
theorem spredning_mtl_eval (t : String) (a n s c : ℚ)
    (ht : pyUpper t = "MTL") (hn : 0 ≤ n * c ^ 2) :
    spredning t a n s c =
      .ok (mathHypot ((s * a / 1000 : ℚ) : ℝ)
        (Real.sqrt ((n * c ^ 2 : ℚ) : ℝ))) := by
  simp +decide [spredning, mathSqrt, ht, not_lt.mpr hn]

/-- Evaluation of `spredning` when the upper-cased type is `"MGL"`, the
setup term is well-defined and the distance is nonnegative:
`hypot (s * sqrt (a / 1000)) (sqrt (n * c²))`. -/
theorem spredning_mgl_eval (t : String) (a n s c : ℚ)
    (ht : pyUpper t = "MGL") (hn : 0 ≤ n * c ^ 2) (ha : 0 ≤ a) :
    spredning t a n s c =
      .ok (mathHypot ((s : ℚ) * Real.sqrt ((a / 1000 : ℚ) : ℝ))
        (Real.sqrt ((n * c ^ 2 : ℚ) : ℝ))) := by
  have h2 : ¬ a / 1000 < 0 := not_lt.mpr (div_nonneg ha (by norm_num))
  simp +decide [spredning, mathSqrt, ht, not_lt.mpr hn, h2]

/-- C5: for all non-negative geometry inputs, `spredning` returns 0 for
type "NUL"; for "MTL" it returns
`hypot (distance_coeff * distance / 1000) (sqrt (num_setups * centering²))`;
and for "MGL" it returns
`hypot (distance_coeff * sqrt (distance / 1000)) (sqrt (num_setups * centering²))`
— the formulas of spec §4.1, stated over the reals. -/
theorem C5_spredning_formler (afstand opst spr centr : ℚ)
    (ha : 0 ≤ afstand) (ho : 0 ≤ opst) (hs : 0 ≤ spr) (hc : 0 ≤ centr) :
    spredning "NUL" afstand opst spr centr = .ok 0 ∧
    spredning "MTL" afstand opst spr centr =
      .ok (mathHypot ((spr : ℝ) * (afstand : ℝ) / 1000)
        (Real.sqrt ((opst : ℝ) * (centr : ℝ) ^ 2))) ∧
    spredning "MGL" afstand opst spr centr =
      .ok (mathHypot ((spr : ℝ) * Real.sqrt ((afstand : ℝ) / 1000))
        (Real.sqrt ((opst : ℝ) * (centr : ℝ) ^ 2))) := by
  have hn : 0 ≤ opst * centr ^ 2 := mul_nonneg ho (sq_nonneg centr)
  refine ⟨spredning_nul_eval _ _ _ _ _ (by decide), ?_, ?_⟩
  · rw [spredning_mtl_eval _ _ _ _ _ (by decide) hn]
    congr 1
    · push_cast
      ring
  · rw [spredning_mgl_eval _ _ _ _ _ (by decide) hn ha]
    congr 2
    · push_cast
      ring
    · push_cast
      ring

/-- Witness for C5 at the concrete geometry (500 m, 3 setups, coefficients
2 mm and 1/2 mm): the hypotheses hold and the three formulas evaluate. -/
theorem C5_spredning_formler_witness :
    (0 : ℚ) ≤ 500 ∧
    (spredning "NUL" 500 3 2 (1/2) = .ok 0 ∧
     spredning "MTL" 500 3 2 (1/2) =
       .ok (mathHypot (((2 : ℚ) : ℝ) * ((500 : ℚ) : ℝ) / 1000)
         (Real.sqrt (((3 : ℚ) : ℝ) * (((1/2 : ℚ)) : ℝ) ^ 2))) ∧
     spredning "MGL" 500 3 2 (1/2) =
       .ok (mathHypot (((2 : ℚ) : ℝ) * Real.sqrt (((500 : ℚ) : ℝ) / 1000))
         (Real.sqrt (((3 : ℚ) : ℝ) * (((1/2 : ℚ)) : ℝ) ^ 2)))) :=
  ⟨by norm_num,
   C5_spredning_formler 500 3 2 (1/2) (by norm_num) (by norm_num)
     (by norm_num) (by norm_num)⟩

/-- C6 counterexample: at the docstring's own example input,
`spredning("mtl", 500, 3, 2, 0.5)` evaluates to `sqrt(7/4) ≈ 1.3229`, which
is *not* approximately `1.25` (it differs by more than `1/20`), refuting
the claimed value taken from the docstring / spec property 2. -/
theorem C6_modeksempel :
    spredning "mtl" 500 3 2 (1/2) = .ok (Real.sqrt (7/4)) ∧
    ¬ |Real.sqrt (7/4) - 5/4| < 1/20 := by
  constructor
  · rw [spredning_mtl_eval _ _ _ _ _ (by decide) (by norm_num)]
    congr 1
    unfold mathHypot
    push_cast
    rw [Real.sq_sqrt (by norm_num : (0:ℝ) ≤ 3 * (1/2 : ℝ) ^ 2)]
    norm_num
  · have h : (13/10 : ℝ) ≤ Real.sqrt (7/4) :=
      Real.le_sqrt_of_sq_le (by norm_num)
    rw [not_lt]
    calc (1/20 : ℝ) ≤ Real.sqrt (7/4) - 5/4 := by linarith
      _ ≤ |Real.sqrt (7/4) - 5/4| := le_abs_self _

/-- C6 as amended: the type match is case-insensitive
(`spredning "mtl" … = spredning "MTL" …`), and the two docstring example
inputs actually evaluate to `sqrt(7/4) ≈ 1.3229` (not 1.25) and
`sqrt(1803/10000) ≈ 0.4246` (not 0.4243). -/
theorem C6_korrigerede_eksempler :
    spredning "mtl" 500 3 2 (1/2) = spredning "MTL" 500 3 2 (1/2) ∧
    spredning "mtl" 500 3 2 (1/2) = .ok (Real.sqrt (7/4)) ∧
    |Real.sqrt (7/4) - 13229/10000| < 1/1000 ∧
    spredning "MGL" 500 3 (3/5) (1/100) = .ok (Real.sqrt (1803/10000)) ∧
    |Real.sqrt (1803/10000) - 4246/10000| < 1/1000 := by
  have hmtl : spredning "mtl" 500 3 2 (1/2) = .ok (Real.sqrt (7/4)) := by
    rw [spredning_mtl_eval _ _ _ _ _ (by decide) (by norm_num)]
    congr 1
    unfold mathHypot
    push_cast
    rw [Real.sq_sqrt (by norm_num : (0:ℝ) ≤ 3 * (1/2 : ℝ) ^ 2)]
    norm_num
  refine ⟨rfl, hmtl, ?_, ?_, ?_⟩
  · have hlo : (13220/10000 : ℝ) ≤ Real.sqrt (7/4) :=
      Real.le_sqrt_of_sq_le (by norm_num)
    have hhi : Real.sqrt (7/4) < 13239/10000 :=
      (Real.sqrt_lt' (by norm_num)).mpr (by norm_num)
    rw [abs_sub_lt_iff]
    constructor <;> linarith
  · rw [spredning_mgl_eval _ _ _ _ _ (by decide) (by norm_num) (by norm_num)]
    congr 1
    unfold mathHypot
    push_cast
    rw [mul_pow, Real.sq_sqrt (by norm_num : (0:ℝ) ≤ 500 / 1000),
      Real.sq_sqrt (by norm_num : (0:ℝ) ≤ 3 * (1/100 : ℝ) ^ 2)]
    norm_num
  · have hlo : (4237/10000 : ℝ) ≤ Real.sqrt (1803/10000) :=
      Real.le_sqrt_of_sq_le (by norm_num)
    have hhi : Real.sqrt (1803/10000) < 4256/10000 :=
      (Real.sqrt_lt' (by norm_num)).mpr (by norm_num)
    rw [abs_sub_lt_iff]
    constructor <;> linarith

/-- C7 counterexample: `spredning("MTL", -1, 3, 2, 0.5)` does *not* fail
with InvalidGeometry — the MTL branch takes no square root of the distance,
so the negative distance is absorbed by `hypot` and a value is returned. -/
theorem C7_modeksempel :
    spredning "MTL" (-1) 3 2 (1/2) ≠ .error .invalidGeometry := by
  rw [spredning_mtl_eval _ _ _ _ _ (by decide) (by norm_num)]
  simp

/-- C7 as amended: with a well-defined setup term, every type whose
upper-casing is none of "NUL", "MTL", "MGL" fails with
InvalidMeasurementType; and a *negative distance* fails with
InvalidGeometry (the `math.sqrt` domain error) for type "MGL" — the only
branch that takes a square root of the distance. -/
theorem C7_korrigeret :
    (∀ (t : String) (a n s c : ℚ), 0 ≤ n * c ^ 2 →
      ¬ pyUpper t = "NUL" → ¬ pyUpper t = "MTL" → ¬ pyUpper t = "MGL" →
      spredning t a n s c = .error .invalidMeasurementType) ∧
    (∀ (a n s c : ℚ), a < 0 →
      spredning "MGL" a n s c = .error .invalidGeometry) := by
  constructor
  · intro t a n s c hn h1 h2 h3
    simp +decide [spredning, mathSqrt, h1, h2, h3, not_lt.mpr hn]
  · intro a n s c hneg
    have hd : a / 1000 < 0 := div_neg_of_neg_of_pos hneg (by norm_num)
    by_cases hn : n * c ^ 2 < 0
    · simp +decide [spredning, mathSqrt, hn]
    · simp +decide [spredning, mathSqrt, hn, hd]

/-- Witness for C7 as amended: `spredning "xyz"` with valid geometry fails
with InvalidMeasurementType, and `spredning "MGL"` at distance −1 fails
with InvalidGeometry. -/
theorem C7_korrigeret_witness :
    (0 : ℚ) ≤ 3 * (1/2) ^ 2 ∧ (-1 : ℚ) < 0 ∧
    spredning "xyz" 500 3 2 (1/2) = .error .invalidMeasurementType ∧
    spredning "MGL" (-1) 3 2 (1/2) = .error .invalidGeometry :=
  ⟨by norm_num, by norm_num,
   C7_korrigeret.1 "xyz" 500 3 2 (1/2) (by norm_num) (by decide) (by decide)
     (by decide),
   C7_korrigeret.2 (-1) 3 2 (1/2) (by norm_num)⟩

/-- C2 (code evaluated at the failing input): on `wsBA` — row 0 is point
"B" with *empty* fixed-flag, row 1 is point "A" with fixed-flag "x" — the
Control-phase selection returns the unflagged first row `{B ↦ 10}` instead
of the "x"-flagged row, and the Final-phase selection returns the second
row `{A ↦ 20}` irrespective of flags: the pandas-mask idioms
`fasthold == "x"` / `fasthold != ""` evaluate on plain lists to the
booleans `False` / `True`, which then index row 0 / row 1. -/
theorem C2_find_fastholdte_ignorerer_flag :
    find_fastholdte wsBA true = some [("B", some 10)] ∧
    find_fastholdte wsBA false = some [("A", some 20)] := by
  decide

/-- C3 (code evaluated at the failing input): on `wsTomFlag`, where *no*
row carries a fixed-flag, the computation does not abort with
NoFixedPointsError — `find_fastholdte` still returns a one-entry selection
(row 0 in Control phase, row 1 in Final phase), so the emptiness guard in
`regn` accepts it and the run continues. -/
theorem C3_ingen_fejl_ved_tomme_flag :
    regn_fastholdte wsTomFlag true = .ok [("A", some 5)] ∧
    regn_fastholdte wsTomFlag false = .ok [("B", some 7)] := by
  constructor <;> rfl

/-- C1 (code evaluated at the failing input): reconciling the solver
triple ("A", 21, 9/25) into `wsBA` (where "A" sits at row index 1 > loop
index 0, so the duplicate branch fires) appends an entry to the `punkt`
and `ny_sigma` lists (length 3) but leaves `kote` and `ny_kote` at length
2: no copy of the full row is appended, so the prior row's height fields
are not preserved in any appended copy. -/
theorem C1_ingen_fuld_raekkekopi :
    («opdater_arbejdssæt» ["A"] [21] [9/25] wsBA 0).punkt.length = 3 ∧
    («opdater_arbejdssæt» ["A"] [21] [9/25] wsBA 0).ny_sigma.length = 3 ∧
    («opdater_arbejdssæt» ["A"] [21] [9/25] wsBA 0).kote.length = 2 ∧
    («opdater_arbejdssæt» ["A"] [21] [9/25] wsBA 0).ny_kote.length = 2 := by
  simp +decide [«opdater_arbejdssæt», «opdaterLøkke», opdaterTrin, deltaKote,
    wsBA, List.indexOf, List.findIdx, List.findIdx.go]

/-- C10 (code evaluated at the failing input): `wsBA` satisfies the
equal-length invariant of the fourteen parallel lists, but the working set
returned by `opdater_arbejdssæt` for the solver triple ("A", 21, 9/25)
does not — the duplicate branch extends only the `punkt`, `ny_sigma`,
`hvornår` and `system` lists, leaving the other ten behind. -/
theorem C10_parallellister_brydes :
    wsBA.Wf ∧ ¬ («opdater_arbejdssæt» ["A"] [21] [9/25] wsBA 0).Wf := by
  simp +decide [«opdater_arbejdssæt», «opdaterLøkke», opdaterTrin, deltaKote,
    wsBA, «Arbejdssæt».Wf, List.indexOf, List.findIdx, List.findIdx.go]

/-- C9: when the adjusted-coordinate list and the covariance-diagonal list
differ in length, the read-then-reconcile sequence of `regn` fails with
ResultCardinalityMismatch: the assertion in `læs_gama_output` fires before
`opdater_arbejdssæt` is ever reached, so no updated working set is
produced and the prior working set is untouched. -/
theorem C9_kardinalitetsfejl (koteliste : List (String × ℚ))
    (varliste : List ℚ) (a : «Arbejdssæt») (tg : ℚ)
    (h : koteliste.length ≠ varliste.length) :
    «læs_gama_output» koteliste varliste tg =
      .error .resultCardinalityMismatch ∧
    «regn_læs_og_opdater» koteliste varliste a tg =
      .error .resultCardinalityMismatch := by
  constructor
  · simp [«læs_gama_output», h]
  · simp [«regn_læs_og_opdater», «læs_gama_output», h]

/-- Witness for C9: one adjusted coordinate but zero variances — the read
aborts with ResultCardinalityMismatch and no reconciled working set is
returned. -/
theorem C9_kardinalitetsfejl_witness :
    ([(("P1" : String), (7 : ℚ))].length ≠ ([] : List ℚ).length) ∧
    «læs_gama_output» [("P1", 7)] [] 0 =
      .error .resultCardinalityMismatch ∧
    «regn_læs_og_opdater» [("P1", 7)] [] wsBA 0 =
      .error .resultCardinalityMismatch :=
  ⟨by decide,
   (C9_kardinalitetsfejl [("P1", 7)] [] wsBA 0 (by decide)).1,
   (C9_kardinalitetsfejl [("P1", 7)] [] wsBA 0 (by decide)).2⟩

/-- Structure lemma for the observation loop: a successful `dhLinjer` run
emits exactly one record per non-excluded row, in order. -/
theorem dhLinjer_forall₂ (rs : List «ObsRække») (ds : List DhRec)
    (h : dhLinjer rs = .ok ds) :
    List.Forall₂ dhSvarerTil (rs.filter fun r => !(r.sluk == "x")) ds := by
  induction rs generalizing ds with
  | nil =>
    simp only [dhLinjer, Except.ok.injEq] at h
    subst h
    simp
  | cons r rest ih =>
    simp only [dhLinjer] at h
    by_cases hs : r.sluk = "x"
    · rw [if_pos hs] at h
      simpa [List.filter_cons, hs] using ih ds h
    · rw [if_neg hs] at h
      cases hsp : spredning r.type r.L r.opst r.sigma r.delta with
      | error e =>
        rw [hsp] at h
        exact absurd h (by simp)
      | ok s =>
        rw [hsp] at h
        cases hrest : dhLinjer rest with
        | error e =>
          rw [hrest] at h
          exact absurd h (by simp)
        | ok ds' =>
          rw [hrest] at h
          simp only [Except.ok.injEq] at h
          subst h
          rw [List.filter_cons_of_pos (by simp [hs])]
          exact List.Forall₂.cons ⟨rfl, rfl, rfl, rfl, rfl, hsp⟩
            (ih ds' hrest)

/-- C8: whenever `skriv_gama_inputfil` succeeds, the height-difference
records of the generated solver input correspond one-to-one, in order, to
the *non-excluded* observation rows: no record stems from a row whose
`sluk` flag is "x" (wherever it sits in the list), and every non-excluded
row is emitted. -/
theorem C8_slukkede_udelades (fastholdte : List (String × Option ℚ))
    (est : List String) (o : Observationer) (g : GamaInput)
    (h : skriv_gama_inputfil fastholdte est o = .ok g) :
    List.Forall₂ dhSvarerTil
      ((«obsRækker» o).filter fun r => !(r.sluk == "x"))
      g.observationer := by
  unfold skriv_gama_inputfil at h
  cases hd : dhLinjer («obsRækker» o) with
  | error e =>
    rw [hd] at h
    exact absurd h (by simp)
  | ok ds =>
    rw [hd] at h
    simp only [Except.ok.injEq] at h
    subst h
    exact dhLinjer_forall₂ _ _ hd

/-- Witness for C8 at `obsW`: the writer succeeds with exactly one record
— the excluded first row is absent — and the correspondence holds. -/
theorem C8_slukkede_udelades_witness :
    skriv_gama_inputfil [] [] obsW = .ok gamaW ∧
    List.Forall₂ dhSvarerTil
      ((«obsRækker» obsW).filter fun r => !(r.sluk == "x"))
      gamaW.observationer :=
  ⟨rfl, C8_slukkede_udelades [] [] obsW gamaW rfl⟩

set_option maxHeartbeats 1600000 in
/-- C4: reconciling an existing point whose recorded timestamp equals the
validity timestamp (elapsed time exactly zero) leaves the row's uplift,
timestamp and system-label fields unchanged — the uplift column is not
touched at all — while its new height, new uncertainty (square root of
the variance) and snapped delta-height are updated to the solver-output
values. -/
theorem C4_nul_tidsforskel (a : «Arbejdssæt») (p : String) (k v tg k₀ : ℚ)
    (i : ℕ) (hWf : a.Wf) (hmem : p ∈ a.punkt) (hi : a.punkt.indexOf p = i)
    (htid : a.«hvornår».get? i = some tg)
    (hkote : a.kote.get? i = some (some k₀)) :
    («opdater_arbejdssæt» [p] [k] [v] a tg).«opløft» = a.«opløft» ∧
    («opdater_arbejdssæt» [p] [k] [v] a tg).«hvornår».get? i = some tg ∧
    («opdater_arbejdssæt» [p] [k] [v] a tg).system.get? i =
      a.system.get? i ∧
    («opdater_arbejdssæt» [p] [k] [v] a tg).ny_kote.get? i =
      some (some k) ∧
    («opdater_arbejdssæt» [p] [k] [v] a tg).ny_sigma.get? i =
      some (some (Real.sqrt (v : ℝ))) ∧
    («opdater_arbejdssæt» [p] [k] [v] a tg).Delta_kote.get? i =
      some (some (deltaKote k k₀)) := by
  obtain ⟨w1, w2, w3, w4, w5, w6, w7, w8, w9, w10, w11, w12, w13⟩ := hWf
  have hp : i < a.punkt.length := hi ▸ List.indexOf_lt_length.mpr hmem
  have hred : «opdater_arbejdssæt» [p] [k] [v] a tg =
      opdaterTrin 0 p k v a tg := rfl
  rw [hred]
  clear hred
  simp only [opdaterTrin, hi]
  rw [if_pos hmem]
  have hgetD : ∀ (l : List ℚ), l.get? i = some tg → l.getD i 0 = tg := by
    intro l hl
    simp [List.getD_eq_getElem?_getD, ← List.get?_eq_getElem?, hl]
  by_cases hip : i > 0
  · rw [if_pos hip]
    have htid2 : (a.«hvornår» ++ [a.«hvornår».getD i 0]).get? i =
        some tg := by
      rw [List.get?_eq_getElem?] at htid ⊢
      rw [List.getElem?_append_left (by omega : i < a.«hvornår».length)]
      exact htid
    have hdt : (a.«hvornår» ++ [a.«hvornår».getD i 0]).getD i 0 = tg :=
      hgetD _ htid2
    rw [hdt, sub_self, zero_div, if_pos rfl]
    have hkoteD : (a.kote.getD i none).getD 0 = k₀ := by
      simp [List.getD_eq_getElem?_getD, ← List.get?_eq_getElem?, hkote]
    rw [hkoteD]
    refine ⟨rfl, htid2, ?_, ?_, ?_, ?_⟩
    · show (a.system ++ ["DVR90"]).get? i = a.system.get? i
      rw [List.get?_eq_getElem?, List.get?_eq_getElem?,
        List.getElem?_append_left (by omega : i < a.system.length)]
    · show (a.ny_kote.set i (some k)).get? i = some (some k)
      rw [List.get?_eq_getElem?,
        List.getElem?_set_eq_of_lt _ (by omega : i < a.ny_kote.length)]
    · show ((a.ny_sigma ++ [a.ny_sigma.getD i none]).set i
          (some (Real.sqrt (v : ℝ)))).get? i = some (some (Real.sqrt (v : ℝ)))
      rw [List.get?_eq_getElem?,
        List.getElem?_set_eq_of_lt _
          (by simp only [List.length_append, List.length_cons,
            List.length_nil]; omega :
            i < (a.ny_sigma ++ [a.ny_sigma.getD i none]).length)]
    · show (a.Delta_kote.set i (some (deltaKote k k₀))).get? i =
        some (some (deltaKote k k₀))
      rw [List.get?_eq_getElem?,
        List.getElem?_set_eq_of_lt _ (by omega : i < a.Delta_kote.length)]
  · rw [if_neg hip]
    have hdt : a.«hvornår».getD i 0 = tg := hgetD _ htid
    rw [hdt, sub_self, zero_div, if_pos rfl]
    have hkoteD : (a.kote.getD i none).getD 0 = k₀ := by
      simp [List.getD_eq_getElem?_getD, ← List.get?_eq_getElem?, hkote]
    rw [hkoteD]
    have h5 : i < a.ny_kote.length := by omega
    have h6 : i < a.ny_sigma.length := by omega
    have h7 : i < a.Delta_kote.length := by omega
    refine ⟨rfl, htid, rfl, ?_, ?_, ?_⟩
    · show (a.ny_kote.set i (some k)).get? i = some (some k)
      rw [List.get?_eq_getElem?, List.getElem?_set_eq_of_lt _ h5]
    · show (a.ny_sigma.set i (some (Real.sqrt (v : ℝ)))).get? i =
        some (some (Real.sqrt (v : ℝ)))
      rw [List.get?_eq_getElem?, List.getElem?_set_eq_of_lt _ h6]
    · show (a.Delta_kote.set i (some (deltaKote k k₀))).get? i =
        some (some (deltaKote k k₀))
      rw [List.get?_eq_getElem?, List.getElem?_set_eq_of_lt _ h7]

/-- Witness for C4: reconciling ("A", 21, 9/25) into `wsBA` at validity
timestamp 0 — equal to row 1's recorded timestamp, so elapsed time is
zero — leaves uplift, timestamp and system label of row 1 unchanged while
updating its new height, new uncertainty and delta-height. -/
theorem C4_nul_tidsforskel_witness :
    («opdater_arbejdssæt» ["A"] [21] [9/25] wsBA 0).«opløft» =
      wsBA.«opløft» ∧
    («opdater_arbejdssæt» ["A"] [21] [9/25] wsBA 0).«hvornår».get? 1 =
      some 0 ∧
    («opdater_arbejdssæt» ["A"] [21] [9/25] wsBA 0).system.get? 1 =
      wsBA.system.get? 1 ∧
    («opdater_arbejdssæt» ["A"] [21] [9/25] wsBA 0).ny_kote.get? 1 =
      some (some 21) ∧
    («opdater_arbejdssæt» ["A"] [21] [9/25] wsBA 0).ny_sigma.get? 1 =
      some (some (Real.sqrt ((9/25 : ℚ) : ℝ))) ∧
    («opdater_arbejdssæt» ["A"] [21] [9/25] wsBA 0).Delta_kote.get? 1 =
      some (some (deltaKote 21 20)) :=
  C4_nul_tidsforskel wsBA "A" 21 (9/25) 0 20 1 (by decide) (by decide)
    (by decide) rfl rfl
